import Mathlib

/-!
Verification development for the token-launch polling notifier
(`src/main.py`).  The script's two non-trivial pieces are shallowly
embedded here:

* the heuristic safety scorer `calculate_safety_score` together with the
  helpers it relies on (`format_currency`, the social / liquidity /
  wallet / website / honeypot adjustments), and
* the change-detection loop of `monitor_new_tokens` (seeding of the
  `fetched_tokens` mapping and the per-cycle processing of newly seen
  tokens, including `send_token_info`).

Python values are modelled by `PyVal` (strings, numbers, booleans,
`None`); dictionaries by association lists; exceptions by
`Except PyErr`.  Numbers are modelled exactly as scaled decimals
`m / 10^e` (`DecNum`): every numeric literal the script compares against
(30, 20, 10, 0.66, 0.33, 1000, 5000, 25000, 1/2) and every value
`float()` can parse in this model is such a decimal, and the script's
comparisons at these thresholds agree with IEEE-double comparisons on
them.  External services (DexScreener via `get_dex_data`, Honeypot.is
via `is_honeypot`, the Telegram post) are modelled as explicit function
parameters giving the service response, since each of them catches its
own transport failures internally.
-/

/-- An exact decimal number `m / 10 ^ e`, the embedding of the Python
floats handled by the script. -/
structure DecNum where
  m : Int
  e : Nat
deriving DecidableEq

/-- The integer `n` as a decimal. -/
def DecNum.ofInt (n : Int) : DecNum := ⟨n, 0⟩

/-- Comparison `a < b` by cross-multiplication (`10 ^ e > 0`). -/
def DecNum.lt (a b : DecNum) : Bool :=
  a.m * (10 : Int) ^ b.e < b.m * (10 : Int) ^ a.e

/-- Comparison `a > b`. -/
def DecNum.gt (a b : DecNum) : Bool := DecNum.lt b a

/-- Comparison `a ≥ b`. -/
def DecNum.ge (a b : DecNum) : Bool := !DecNum.lt a b

/-- Numeric equality of decimals (value equality, not representation). -/
def DecNum.beq (a b : DecNum) : Bool :=
  a.m * (10 : Int) ^ b.e == b.m * (10 : Int) ^ a.e

/-- Sum of two decimals. -/
def DecNum.add (a b : DecNum) : DecNum :=
  ⟨a.m * (10 : Int) ^ b.e + b.m * (10 : Int) ^ a.e, a.e + b.e⟩

/-- Product of two decimals. -/
def DecNum.mul (a b : DecNum) : DecNum :=
  ⟨a.m * b.m, a.e + b.e⟩

/-- Division of a decimal by `10 ^ k` (the only divisions the script
performs are by 1,000 and 1,000,000). -/
def DecNum.shr (a : DecNum) (k : Nat) : DecNum :=
  ⟨a.m, a.e + k⟩

/-- Floor of a decimal (Euclidean division by the positive `10 ^ e`). -/
def DecNum.floor (a : DecNum) : Int :=
  Int.ediv a.m ((10 : Int) ^ a.e)

/-- A Python value as it occurs in the script's token / dex
dictionaries. -/
inductive PyVal where
  | str (s : String)
  | num (q : DecNum)
  | bool (b : Bool)
  | none
deriving DecidableEq

/-- The Python exceptions the embedded fragments can raise. -/
inductive PyErr where
  | keyError (k : String)
  | valueError
  | attributeError
  | typeError
deriving DecidableEq

/-- A Python `dict` with string keys, as an association list. -/
abbrev PyDict := List (String × PyVal)

/-- `d.get(k)` without a default: `some v` when the key is present. -/
def dget (d : PyDict) (k : String) : Option PyVal :=
  d.lookup k

/-- `d.get(k, dflt)`. -/
def dgetD (d : PyDict) (k : String) (dflt : PyVal) : PyVal :=
  (dget d k).getD dflt

/-- `d[k]`: raises `KeyError` when the key is absent. -/
def dsub (d : PyDict) (k : String) : Except PyErr PyVal :=
  match dget d k with
  | some v => Except.ok v
  | Option.none => Except.error (PyErr.keyError k)

/-- Python truthiness of a value (`if value:`). -/
def truthy : PyVal → Bool
  | PyVal.str s => !(s == "")
  | PyVal.num q => !(DecNum.beq q (DecNum.ofInt 0))
  | PyVal.bool b => b
  | PyVal.none => false

/-- Python `==` on the embedded value types (notably `1 == True`). -/
def pyEq : PyVal → PyVal → Bool
  | PyVal.str a, PyVal.str b => a == b
  | PyVal.num a, PyVal.num b => DecNum.beq a b
  | PyVal.bool a, PyVal.bool b => a == b
  | PyVal.num a, PyVal.bool b => DecNum.beq a (DecNum.ofInt (if b then 1 else 0))
  | PyVal.bool a, PyVal.num b => DecNum.beq (DecNum.ofInt (if a then 1 else 0)) b
  | PyVal.none, PyVal.none => true
  | _, _ => false

/-- Value of a list of decimal digit characters. -/
def digitsVal (cs : List Char) : Nat :=
  cs.foldl (fun a c => a * 10 + (c.toNat - 48)) 0

/-- Strip leading and trailing whitespace from a character list. -/
def listTrim (cs : List Char) : List Char :=
  ((cs.dropWhile Char.isWhitespace).reverse.dropWhile Char.isWhitespace).reverse

/-- Python `float(s)` on a string: optional sign, decimal digits with an
optional fractional part (whitespace-trimmed).  `Option.none` models the
`ValueError` raised on non-numeric input. -/
def parseFloat? (s : String) : Option DecNum :=
  let cs := listTrim s.toList
  let sgn : Int := match cs with
    | '-' :: _ => -1
    | _ => 1
  let cs2 : List Char := match cs with
    | '-' :: rest => rest
    | '+' :: rest => rest
    | _ => cs
  let ip := cs2.takeWhile (fun c => c.isDigit)
  let rest := cs2.dropWhile (fun c => c.isDigit)
  match rest with
  | [] =>
    if ip.isEmpty then Option.none
    else some ⟨sgn * (digitsVal ip : Int), 0⟩
  | '.' :: frac =>
    if frac.all (fun c => c.isDigit) && !(ip.isEmpty && frac.isEmpty) then
      some ⟨sgn * (digitsVal (ip ++ frac) : Int), frac.length⟩
    else Option.none
  | _ => Option.none

/-- Python `float(value)` on an arbitrary value; `Option.none` models the
exception (`ValueError` for bad strings, `TypeError` for `None`). -/
def pyFloat : PyVal → Option DecNum
  | PyVal.num q => some q
  | PyVal.bool b => some (DecNum.ofInt (if b then 1 else 0))
  | PyVal.str s => parseFloat? s
  | PyVal.none => Option.none

/-- Python `float(value)` in a context where the exception propagates. -/
def pyFloatE (v : PyVal) : Except PyErr DecNum :=
  match pyFloat v with
  | some q => Except.ok q
  | Option.none =>
    match v with
    | PyVal.str _ => Except.error PyErr.valueError
    | _ => Except.error PyErr.typeError

/-- Left-pad a digit string with zeros to length `n`. -/
def padZeros (s : String) (n : Nat) : String :=
  if s.length ≥ n then s
  else String.mk (List.replicate (n - s.length) '0') ++ s

/-- Render a decimal with exactly its `e` fractional digits. -/
def decToString (q : DecNum) : String :=
  let sign := if q.m < 0 then "-" else ""
  let n := q.m.natAbs
  if q.e == 0 then sign ++ toString n
  else sign ++ toString (n / 10 ^ q.e) ++ "." ++ padZeros (toString (n % 10 ^ q.e)) q.e

/-- Python `str(value)` as used by the f-strings of the script. -/
def pyStr : PyVal → String
  | PyVal.str s => s
  | PyVal.num q => decToString q
  | PyVal.bool b => if b then "True" else "False"
  | PyVal.none => "None"

/-- Python `s.startswith(pre)`. -/
def pyStartswith (s pre : String) : Bool :=
  pre.toList.isPrefixOf s.toList

/-- Does the first list occur as a contiguous sublist of the second? -/
def listContainsSub (sub : List Char) : List Char → Bool
  | [] => sub.isPrefixOf []
  | c :: t => sub.isPrefixOf (c :: t) || listContainsSub sub t

/-- Python `sub in s` (substring containment). -/
def pyContains (s sub : String) : Bool :=
  listContainsSub sub.toList s.toList

/-- Python `s.lower()` (ASCII case folding suffices for the markers the
script scans for). -/
def pyLower (s : String) : String :=
  String.mk (s.toList.map Char.toLower)

/-- Fixed-point rendering of a decimal with `prec` fractional digits,
modelling Python's `f"{v:.2f}"` / `f"{v:.6f}"` on the embedded values. -/
def fmtFixed (q : DecNum) (prec : Nat) : String :=
  let scaled : Int :=
    DecNum.floor (DecNum.add (DecNum.mul q (DecNum.ofInt ((10 : Int) ^ prec))) ⟨5, 1⟩)
  let sign := if scaled < 0 then "-" else ""
  let n := scaled.natAbs
  let ip := n / 10 ^ prec
  let fp := n % 10 ^ prec
  if prec == 0 then sign ++ toString ip
  else sign ++ toString ip ++ "." ++ padZeros (toString fp) prec

/-- `format_currency` (src/main.py lines 90-100): `"N/A"` for falsy
input, otherwise `float(value)` (which may raise) rendered with an `M` /
`K` suffix. -/
def format_currency (value : PyVal) : Except PyErr String :=
  if !truthy value then Except.ok "N/A"
  else
    match pyFloatE value with
    | Except.error e => Except.error e
    | Except.ok v =>
      if DecNum.ge v (DecNum.ofInt 1000000) then
        Except.ok ("$" ++ fmtFixed (DecNum.shr v 6) 2 ++ "M")
      else if DecNum.ge v (DecNum.ofInt 1000) then
        Except.ok ("$" ++ fmtFixed (DecNum.shr v 3) 2 ++ "K")
      else Except.ok ("$" ++ fmtFixed v 2)

/-- Block 1 of `calculate_safety_score` (lines 109-118): developer-fee
adjustment.  The `try` block catches the `float` failure (`pass`), and a
missing field defaults to `0` via `token.get(..., 0)`. -/
def feeAdj (token : PyDict) : Int :=
  match pyFloat (dgetD token "developer_fee_percentage" (PyVal.num (DecNum.ofInt 0))) with
  | some dev_fee =>
    if DecNum.gt dev_fee (DecNum.ofInt 30) then -3
    else if DecNum.gt dev_fee (DecNum.ofInt 20) then -1
    else if DecNum.lt dev_fee (DecNum.ofInt 10) then 1
    else 0
  | Option.none => 0

/-- The `socials_to_check` table (lines 122-126). -/
def socials_to_check : List (String × String) :=
  [("website_url", "http"), ("telegram_url", "t.me"), ("x_account_url", "x.com")]

/-- One iteration of the social loop (lines 128-130):
`token.get(field) and str(token[field]).startswith(prefix)`. -/
def socialFieldHit (token : PyDict) (field pre : String) : Bool :=
  match dget token field with
  | some v => truthy v && pyStartswith (pyStr v) pre
  | Option.none => false

/-- The `social_score` counter accumulated by the loop. -/
def socialCount (token : PyDict) : Nat :=
  socials_to_check.foldl
    (fun acc fp => if socialFieldHit token fp.1 fp.2 then acc + 1 else acc) 0

/-- Block 2 of `calculate_safety_score` (lines 120-138): social-presence
adjustment, with the `0.66` / `0.33` thresholds of the source. -/
def socialAdj (token : PyDict) : Int :=
  let n := socialCount token
  if n == socials_to_check.length then 2
  else if DecNum.ge (DecNum.ofInt (n : Int))
      (DecNum.mul (DecNum.ofInt (socials_to_check.length : Int)) ⟨66, 2⟩) then 1
  else if DecNum.lt (DecNum.ofInt (n : Int))
      (DecNum.mul (DecNum.ofInt (socials_to_check.length : Int)) ⟨33, 2⟩) then -1
  else 0

/-- Block 3 of `calculate_safety_score` (lines 140-154): lock/burn bonus
then liquidity-size tiers.  The surrounding `try` catches the `float`
failure after the lock bonus has already been applied, so a
non-convertible liquidity value keeps the bonus and skips the size
adjustment. -/
def liquidityAdj (dex_data : Option PyDict) : Int :=
  match dex_data with
  | Option.none => 0
  | some dd =>
    if dd.isEmpty then 0
    else
      let lockBonus : Int :=
        if truthy (dgetD dd "locked" PyVal.none) || truthy (dgetD dd "burned" PyVal.none) then 2
        else 0
      let sizeAdj : Int :=
        match pyFloat (dgetD dd "liquidity" (PyVal.num (DecNum.ofInt 0))) with
        | some liquidity =>
          if DecNum.lt liquidity (DecNum.ofInt 1000) then -2
          else if DecNum.lt liquidity (DecNum.ofInt 5000) then -1
          else if DecNum.gt liquidity (DecNum.ofInt 25000) then 1
          else 0
        | Option.none => 0
      lockBonus + sizeAdj

/-- Block 4 of `calculate_safety_score` (lines 156-159): same-wallet
penalty (both fields present and truthy, compared with Python `==`). -/
def walletAdj (token : PyDict) : Int :=
  match dget token "dev_wallet_address", dget token "distribution_wallet_address" with
  | some a, some b =>
    if truthy a && truthy b then (if pyEq a b then -1 else 0) else 0
  | _, _ => 0

/-- Block 5 of `calculate_safety_score` (lines 161-167): website-quality
check.  `token["website_url"].lower()` raises `AttributeError` on a
truthy non-string value; note the source condition
`if 'http://' in website and not 'https://':` whose second conjunct is
the truthiness of the literal `'https://'`. -/
def websiteAdj (token : PyDict) : Except PyErr Int :=
  match dget token "website_url" with
  | some v =>
    if truthy v then
      match v with
      | PyVal.str sraw =>
        let website := pyLower sraw
        let sslAdj : Int :=
          if pyContains website "http://" && !(truthy (PyVal.str "https://")) then -1
          else 0
        let placeholderAdj : Int :=
          if ["example.com", "temp.com", "placeholder"].any (fun w => pyContains website w) then -2
          else 0
        Except.ok (sslAdj + placeholderAdj)
      | _ => Except.error PyErr.attributeError
    else Except.ok 0
  | Option.none => Except.ok 0

/-- Block 6 of `calculate_safety_score` (lines 169-174): honeypot
penalty.  `hp` is the verdict returned by `is_honeypot` for a given
address value (that function catches its own transport errors and
returns `False` on failure, so it is total); the `try` catches the
`KeyError` of `token["token_mint_address"]`. -/
def honeypotAdj (token : PyDict) (hp : PyVal → Bool) : Int :=
  match dget token "token_mint_address" with
  | some v => if hp v then -3 else 0
  | Option.none => 0

/-- `calculate_safety_score` (src/main.py lines 102-177): baseline 5,
the six additive adjustments in source order, and the final
`max(1, min(10, score))` clamp.  Every block is additive and independent
of the running score, so the sequential mutations of the source equal
this sum; the only uncaught exception is the website block's
`AttributeError`. -/
def calculate_safety_score (token : PyDict) (dex_data : Option PyDict)
    (hp : PyVal → Bool) : Except PyErr Int :=
  match websiteAdj token with
  | Except.error e => Except.error e
  | Except.ok w =>
    Except.ok (max 1 (min 10
      (5 + feeAdj token + socialAdj token + liquidityAdj dex_data
         + walletAdj token + w + honeypotAdj token hp)))

deriving instance DecidableEq for Except

/-- The safety emoji / tier pair computed in `send_token_info`
(src/main.py lines 199-207). -/
def safetyTier (safety_score : Int) : String × String :=
  if safety_score ≥ 8 then ("üü¢", "High Safety")
  else if safety_score ≥ 5 then ("üü°", "Medium Risk")
  else ("üî¥", "High Risk")

/-- `format_contract_address` (lines 179-181). -/
def format_contract_address (address : PyVal) : String :=
  "`" ++ pyStr address ++ "`"

/-- One inline keyboard button of the Telegram payload. -/
structure InlineButton where
  text : String
  url : Option String
  callback_data : Option String
deriving DecidableEq

/-- The `sendPhoto` payload built by `send_token_info` (the environment
fields `chat_id` / bot token are startup configuration, outside this
model). -/
structure MessagePayload where
  photo : PyVal
  caption : String
  parse_mode : String
  buttons : List (List InlineButton)
deriving DecidableEq

/-- `send_token_info` (src/main.py lines 183-279) up to the final
`requests.post`, whose transport failure the source catches.  `dexApi`
models `get_dex_data` (which returns `None` on any internal failure) and
`hp` models `is_honeypot`; both are read at the addresses the source
passes.  Dictionary subscripts, `float(...)` conversions and
`calculate_safety_score` raise here exactly where the source leaves them
uncaught, in source evaluation order. -/
def send_token_info (token : PyDict) (dexApi : PyVal → Option PyDict)
    (hp : PyVal → Bool) : Except PyErr MessagePayload := do
  let mint ← dsub token "token_mint_address"
  let distribute_url := "https://distributesol.io/token/" ++ pyStr mint
  let dexscreener_url := "https://dexscreener.com/solana/" ++ pyStr mint
  let jupiter_url := "https://jup.ag/swap/SOL-" ++ pyStr mint
  let solscan_contract := "https://solscan.io/token/" ++ pyStr mint
  let devw ← dsub token "dev_wallet_address"
  let solscan_dev_wallet := "https://solscan.io/address/" ++ pyStr devw
  let dex_data := dexApi mint
  let safety_score ← calculate_safety_score token dex_data hp
  let tier := safetyTier safety_score
  let safety_emoji := tier.1
  let safety_comment := tier.2
  let honeypot_warning :=
    match dget token "token_mint_address" with
    | some v =>
      if hp v then "\nüö® *HONEYPOT WARNING* - Potential scam token detected!" else ""
    | Option.none => ""
  let liquidity ← match dex_data with
    | some dd =>
      if dd.isEmpty then pure "N/A" else format_currency (dgetD dd "liquidity" PyVal.none)
    | Option.none => pure "N/A"
  let market_cap ← match dex_data with
    | some dd =>
      if dd.isEmpty then pure "N/A" else format_currency (dgetD dd "market_cap" PyVal.none)
    | Option.none => pure "N/A"
  let price ← match dex_data with
    | some dd =>
      if dd.isEmpty then pure "N/A"
      else
        match pyFloatE (dgetD dd "price" (PyVal.num (DecNum.ofInt 0))) with
        | Except.ok p => pure ("$" ++ fmtFixed p 6)
        | Except.error e => Except.error e
    | Option.none => pure "N/A"
  let volume ← match dex_data with
    | some dd =>
      if dd.isEmpty then pure "N/A" else format_currency (dgetD dd "volume" PyVal.none)
    | Option.none => pure "N/A"
  let name_v ← dsub token "token_name"
  let name_s := pyStr name_v
  let ticker_v ← dsub token "token_ticker"
  let ticker_s := pyStr ticker_v
  let score_s := toString safety_score
  let fee_v ← dsub token "developer_fee_percentage"
  let fee_s := pyStr fee_v
  let fee_flag ← match pyFloatE fee_v with
    | Except.ok f => pure (if DecNum.gt f (DecNum.ofInt 20) then "‚ö†Ô∏è (High)" else "")
    | Except.error e => Except.error e
  let lock_line := match dex_data with
    | some dd =>
      if !dd.isEmpty && (truthy (dgetD dd "locked" PyVal.none) || truthy (dgetD dd "burned" PyVal.none))
      then "üîí Locked Liquidity" else "‚ö†Ô∏è Liquidity Not Verified"
    | Option.none => "‚ö†Ô∏è Liquidity Not Verified"
  let contract := format_contract_address mint
  let website_v ← dsub token "website_url"
  let website_s := pyStr website_v
  let x_v ← dsub token "x_account_url"
  let x_s := pyStr x_v
  let tg_v ← dsub token "telegram_url"
  let tg_s := pyStr tg_v
  let dist_v ← dsub token "distribution_interval"
  let dist_s := pyStr dist_v
  let caption :=
    s!"\nüöÄ New Token Launched On Distribute! üöÄ\n\nüìå *Basic Info:*\nüåü Token Name: {name_s}\nüí≤ Ticker: {ticker_s}\nüí∞ Price: {price}\nüìà MCap: {market_cap}\nüíß Liquidity: {liquidity}\nüìä 24h Volume: {volume}\n\n{safety_emoji} Safety Score: {score_s}/10 - {safety_comment}\n\nüîç Risk Analysis:\n- Dev Fee: {fee_s}% {fee_flag}\n- {lock_line}\n- Contract: {contract}\n\nüîó Links:\n[View on Solscan]({solscan_contract}) | [Website]({website_s})\n[Twitter]({x_s}) | [Telegram]({tg_s})\n\nüõ† [Dev Wallet]({solscan_dev_wallet})\nüìÖ Distribution: Every {dist_s} mins\n{honeypot_warning}\n\nüì¢ Always DYOR before investing!\n"
  let buttons : List (List InlineButton) :=
    [[InlineButton.mk "üìù Copy CA" Option.none (some ("copy_" ++ pyStr mint)),
      InlineButton.mk "DexS" (some dexscreener_url) Option.none],
     [InlineButton.mk "Jupiter" (some jupiter_url) Option.none,
      InlineButton.mk "Distribute" (some distribute_url) Option.none]]
  let image ← dsub token "image_url"
  pure (MessagePayload.mk image caption "Markdown" buttons)

/-- The `fetched_tokens` mapping (src/main.py line 27): keys are the
`token["token_mint_address"]` values, entries the token records. -/
abbrev SeenSet := List (PyVal × PyDict)

/-- Python `key in dict` membership for the seen set. -/
def hasKey : SeenSet → PyVal → Bool
  | [], _ => false
  | (k0, _) :: rest, k => pyEq k0 k || hasKey rest k

/-- Python `dict[key] = value`: replace an existing entry in place, or
append a fresh key at the end (dict insertion order). -/
def setKey : SeenSet → PyVal → PyDict → SeenSet
  | [], k, v => [(k, v)]
  | (k0, v0) :: rest, k, v =>
    if pyEq k0 k then (k0, v) :: rest
    else (k0, v0) :: setKey rest k v

/-- Lookup in the seen set. -/
def getKey : SeenSet → PyVal → Option PyDict
  | [], _ => Option.none
  | (k0, v0) :: rest, k => if pyEq k0 k then some v0 else getKey rest k

/-- The seeding pass of `monitor_new_tokens` (lines 285-290): every
token of the initial snapshot is stored unconditionally (the `if
initial_tokens:` guard is the identity on the empty snapshot). -/
def seedTokens : List PyDict → SeenSet → Except PyErr SeenSet
  | [], seen => Except.ok seen
  | token :: rest, seen =>
    match dsub token "token_mint_address" with
    | Except.error e => Except.error e
    | Except.ok token_id => seedTokens rest (setKey seen token_id token)

/-- One polling cycle's token loop (lines 296-302): in snapshot order,
an unseen token is stored and then notified via `send_token_info`; any
exception propagates out of the loop (terminating
`monitor_new_tokens`), which is why the returned notification list stops
at the first failing item.  The `if tokens:` guard is the identity on
the empty snapshot. -/
def processNewTokens : List PyDict → SeenSet → (PyVal → Option PyDict) → (PyVal → Bool) →
    Except PyErr (SeenSet × List MessagePayload)
  | [], seen, _, _ => Except.ok (seen, [])
  | token :: rest, seen, dexApi, hp =>
    match dsub token "token_mint_address" with
    | Except.error e => Except.error e
    | Except.ok token_id =>
      if hasKey seen token_id then processNewTokens rest seen dexApi hp
      else
        match send_token_info token dexApi hp with
        | Except.error e => Except.error e
        | Except.ok payload =>
          match processNewTokens rest (setKey seen token_id token) dexApi hp with
          | Except.error e => Except.error e
          | Except.ok (seenF, msgs) => Except.ok (seenF, payload :: msgs)

/-- A honeypot service that reports no honeypots (the `is_honeypot`
result when the lookup fails or is negative). -/
def hpFalse : PyVal → Bool := fun _ => false

/-- A honeypot service that flags every address. -/
def hpTrue : PyVal → Bool := fun _ => true

/-- A DexScreener lookup that fails for every address (so
`get_dex_data` returns `None`). -/
def apiNone : PyVal → Option PyDict := fun _ => Option.none

/-- A token record carrying every field the notification pipeline
touches. -/
def fullToken : PyDict :=
  [("token_mint_address", PyVal.str "M2"),
   ("token_name", PyVal.str "Alpha"),
   ("token_ticker", PyVal.str "AL"),
   ("developer_fee_percentage", PyVal.num (DecNum.ofInt 5)),
   ("website_url", PyVal.str "https://site.com"),
   ("telegram_url", PyVal.str "t.me/alpha"),
   ("x_account_url", PyVal.str "x.com/alpha"),
   ("dev_wallet_address", PyVal.str "W1"),
   ("distribution_wallet_address", PyVal.str "W2"),
   ("distribution_interval", PyVal.num (DecNum.ofInt 60)),
   ("image_url", PyVal.str "https://img.example/x.png")]

/-- A token record whose `token_name` is missing but whose earlier
pipeline accesses all succeed. -/
def tokNoName : PyDict :=
  [("token_mint_address", PyVal.str "M1"),
   ("dev_wallet_address", PyVal.str "W0")]

/-- Token whose website uses plain `http://`. -/
def tokHttp : PyDict := [("website_url", PyVal.str "http://site.com")]

/-- The same token with an `https://` website. -/
def tokHttps : PyDict := [("website_url", PyVal.str "https://site.com")]

/-- Token with no developer-fee field at all. -/
def tokNoFee : PyDict := [("token_mint_address", PyVal.str "M")]

/-- The identical token with a fee in the `else 0` band (10-20%). -/
def tokFee15 : PyDict :=
  [("token_mint_address", PyVal.str "M"),
   ("developer_fee_percentage", PyVal.num (DecNum.ofInt 15))]

/-- Token whose `website_url` is a truthy non-string (`1`). -/
def tokBadWebsite : PyDict := [("website_url", PyVal.num (DecNum.ofInt 1))]

/-- The §8 scenario token: fee 50%, no socials, identical developer and
distribution wallets. -/
def tok7 : PyDict :=
  [("developer_fee_percentage", PyVal.num (DecNum.ofInt 50)),
   ("dev_wallet_address", PyVal.str "W"),
   ("distribution_wallet_address", PyVal.str "W"),
   ("token_mint_address", PyVal.str "MINT7")]

/-- The §8 scenario dex facts: unlocked, unburned, liquidity $500. -/
def dex7 : PyDict :=
  [("liquidity", PyVal.num (DecNum.ofInt 500)),
   ("locked", PyVal.none),
   ("burned", PyVal.bool false)]

/-- A full token record with mint address `"m"` and name `"A"`. -/
def tokA : PyDict :=
  [("token_mint_address", PyVal.str "m"),
   ("token_name", PyVal.str "A"),
   ("token_ticker", PyVal.str "AT"),
   ("developer_fee_percentage", PyVal.num (DecNum.ofInt 5)),
   ("website_url", PyVal.str "https://a.example"),
   ("telegram_url", PyVal.str "t.me/a"),
   ("x_account_url", PyVal.str "x.com/a"),
   ("dev_wallet_address", PyVal.str "WA"),
   ("distribution_wallet_address", PyVal.str "WB"),
   ("distribution_interval", PyVal.num (DecNum.ofInt 30)),
   ("image_url", PyVal.str "https://img.example/a.png")]

/-- The same listing polled later with an updated name `"B"`. -/
def tokB : PyDict :=
  [("token_mint_address", PyVal.str "m"),
   ("token_name", PyVal.str "B"),
   ("token_ticker", PyVal.str "AT"),
   ("developer_fee_percentage", PyVal.num (DecNum.ofInt 5)),
   ("website_url", PyVal.str "https://a.example"),
   ("telegram_url", PyVal.str "t.me/a"),
   ("x_account_url", PyVal.str "x.com/a"),
   ("dev_wallet_address", PyVal.str "WA"),
   ("distribution_wallet_address", PyVal.str "WB"),
   ("distribution_interval", PyVal.num (DecNum.ofInt 30)),
   ("image_url", PyVal.str "https://img.example/a.png")]

/-- A record already stored in the seen set before a cycle. -/
def tokZ : PyDict := [("token_mint_address", PyVal.str "z")]

/-- A honeypot service that flags only the address `"X"`. -/
def hpOnlyX : PyVal → Bool := fun v => v == PyVal.str "X"

/-- A token whose social links are ordinary scheme-prefixed URLs. -/
def tgTok : PyDict :=
  [("telegram_url", PyVal.str "https://t.me/chan"),
   ("x_account_url", PyVal.str "https://x.com/chan")]

/-! ### Helper lemmas about the seen set and the polling loop -/

/-- `pyEq` is reflexive. -/
theorem pyEq_refl (v : PyVal) : pyEq v v = true := by
  cases v <;> simp [pyEq, DecNum.beq]

/-- After `dict[k] = v`, `k` is a member. -/
theorem hasKey_setKey_self (s : SeenSet) (k : PyVal) (v : PyDict) :
    hasKey (setKey s k v) k = true := by
  induction s with
  | nil => simp [setKey, hasKey, pyEq_refl]
  | cons e rest ih =>
    obtain ⟨k0, v0⟩ := e
    cases h : pyEq k0 k with
    | true => simp [setKey, h, hasKey]
    | false => simp [setKey, h, hasKey, ih]

/-- `dict[k] = v` preserves membership of every key. -/
theorem hasKey_setKey_mono (s : SeenSet) (k k2 : PyVal) (v : PyDict)
    (h2 : hasKey s k2 = true) : hasKey (setKey s k v) k2 = true := by
  induction s with
  | nil => simp [hasKey] at h2
  | cons e rest ih =>
    obtain ⟨k0, v0⟩ := e
    simp only [hasKey, Bool.or_eq_true] at h2
    cases h : pyEq k0 k with
    | true =>
      rcases h2 with h2 | h2 <;> simp [setKey, h, hasKey, h2]
    | false =>
      rcases h2 with h2 | h2
      · simp [setKey, h, hasKey, h2]
      · simp [setKey, h, hasKey, ih h2]

/-- Inserting a key that is not yet present preserves every existing
binding. -/
theorem getKey_setKey_fresh (s : SeenSet) (k k2 : PyVal) (v : PyDict) (v2 : PyDict)
    (hfresh : hasKey s k = false) (hv : getKey s k2 = some v2) :
    getKey (setKey s k v) k2 = some v2 := by
  induction s with
  | nil => simp [getKey] at hv
  | cons e rest ih =>
    obtain ⟨k0, v0⟩ := e
    simp only [hasKey, Bool.or_eq_false_iff] at hfresh
    cases h2 : pyEq k0 k2 with
    | true =>
      rw [getKey, if_pos h2] at hv
      simp [setKey, hfresh.1, getKey, h2, hv]
    | false =>
      rw [getKey, if_neg (by simp [h2])] at hv
      simp [setKey, hfresh.1, getKey, h2, ih hfresh.2 hv]

/-- Seeding never drops a key. -/
theorem seedTokens_mono (snap : List PyDict) :
    ∀ s0 s1, seedTokens snap s0 = Except.ok s1 →
      ∀ k, hasKey s0 k = true → hasKey s1 k = true := by
  induction snap with
  | nil =>
    intro s0 s1 h k hk
    simp only [seedTokens] at h
    cases h
    exact hk
  | cons t rest ih =>
    intro s0 s1 h k hk
    simp only [seedTokens] at h
    cases hd : dsub t "token_mint_address" with
    | error e => rw [hd] at h; cases h
    | ok tid =>
      rw [hd] at h
      exact ih (setKey s0 tid t) s1 h k (hasKey_setKey_mono s0 tid k t hk)

/-- After a successful seeding pass every snapshot token's mint address
is a member of the resulting seen set. -/
theorem seedTokens_covers (snap : List PyDict) :
    ∀ s0 s1, seedTokens snap s0 = Except.ok s1 →
      ∀ t ∈ snap, ∃ tid, dsub t "token_mint_address" = Except.ok tid ∧ hasKey s1 tid = true := by
  induction snap with
  | nil => intro s0 s1 _ t ht; simp at ht
  | cons hd rest ih =>
    intro s0 s1 h t ht
    simp only [seedTokens] at h
    cases hdm : dsub hd "token_mint_address" with
    | error e => rw [hdm] at h; cases h
    | ok tid =>
      rw [hdm] at h
      rcases List.mem_cons.mp ht with rfl | ht2
      · exact ⟨tid, hdm,
          seedTokens_mono rest (setKey s0 tid t) s1 h tid (hasKey_setKey_self s0 tid t)⟩
      · exact ih (setKey s0 tid hd) s1 h t ht2

/-- Anatomy of a successful polling cycle: membership is monotone,
existing bindings are never overwritten, and every snapshot token's mint
address ends up a member. -/
theorem processNewTokens_spec (snap : List PyDict) :
    ∀ s0 A H s1 ms, processNewTokens snap s0 A H = Except.ok (s1, ms) →
      (∀ k, hasKey s0 k = true → hasKey s1 k = true) ∧
      (∀ k v, getKey s0 k = some v → getKey s1 k = some v) ∧
      (∀ t ∈ snap, ∃ tid, dsub t "token_mint_address" = Except.ok tid ∧ hasKey s1 tid = true) := by
  induction snap with
  | nil =>
    intro s0 A H s1 ms h
    simp only [processNewTokens] at h
    cases h
    exact ⟨fun k hk => hk, fun k v hv => hv, by simp⟩
  | cons t rest ih =>
    intro s0 A H s1 ms h
    simp only [processNewTokens] at h
    cases hd : dsub t "token_mint_address" with
    | error e => rw [hd] at h; cases h
    | ok tid =>
      simp only [hd] at h
      cases hk : hasKey s0 tid with
      | true =>
        rw [if_pos hk] at h
        obtain ⟨mono, pres, cov⟩ := ih s0 A H s1 ms h
        refine ⟨mono, pres, ?_⟩
        intro u hu
        rcases List.mem_cons.mp hu with rfl | hu2
        · exact ⟨tid, hd, mono tid hk⟩
        · exact cov u hu2
      | false =>
        rw [if_neg (by simp [hk])] at h
        cases hs : send_token_info t A H with
        | error e => simp only [hs] at h; exact Except.noConfusion h
        | ok payload =>
          simp only [hs] at h
          cases hr : processNewTokens rest (setKey s0 tid t) A H with
          | error e => simp only [hr] at h; exact Except.noConfusion h
          | ok pr =>
            obtain ⟨s1', msgs⟩ := pr
            simp only [hr] at h
            cases h
            obtain ⟨mono, pres, cov⟩ := ih (setKey s0 tid t) A H _ _ hr
            refine ⟨?_, ?_, ?_⟩
            · intro k hk2
              exact mono k (hasKey_setKey_mono s0 tid k t hk2)
            · intro k v hv
              exact pres k v (getKey_setKey_fresh s0 tid k t v hk hv)
            · intro u hu
              rcases List.mem_cons.mp hu with rfl | hu2
              · exact ⟨tid, hd, mono tid (hasKey_setKey_self s0 tid _)⟩
              · exact cov u hu2

/-- A cycle whose snapshot only holds already-seen mint addresses stores
nothing and sends nothing. -/
theorem processNewTokens_noop (snap : List PyDict) :
    ∀ s A H,
      (∀ t ∈ snap, ∃ tid, dsub t "token_mint_address" = Except.ok tid ∧ hasKey s tid = true) →
      processNewTokens snap s A H = Except.ok (s, []) := by
  induction snap with
  | nil => intro s A H _; rfl
  | cons t rest ih =>
    intro s A H h
    obtain ⟨tid, hid, hmem⟩ := h t (List.mem_cons_self t rest)
    simp only [processNewTokens, hid, hmem, if_true]
    exact ih s A H (fun u hu => h u (List.mem_cons_of_mem t hu))

/-! ### Helper lemmas about the scorer -/

/-- Lookup skips a cons cell with a different key. -/
theorem dget_cons_ne (t : PyDict) (k k2 : String) (v : PyVal)
    (h : (k2 == k) = false) : dget ((k, v) :: t) k2 = dget t k2 := by
  simp [dget, List.lookup, h]

/-- Lookup finds the key at the head. -/
theorem dget_cons_self (t : PyDict) (k : String) (v : PyVal) :
    dget ((k, v) :: t) k = some v := by
  simp [dget, List.lookup]

/-- `socialFieldHit` only reads the looked-up field. -/
theorem socialFieldHit_congr {t1 t2 : PyDict} (f p : String)
    (h : dget t1 f = dget t2 f) : socialFieldHit t1 f p = socialFieldHit t2 f p := by
  unfold socialFieldHit
  rw [h]

/-- `socialCount` only reads the three social fields. -/
theorem socialCount_congr {t1 t2 : PyDict}
    (h1 : dget t1 "website_url" = dget t2 "website_url")
    (h2 : dget t1 "telegram_url" = dget t2 "telegram_url")
    (h3 : dget t1 "x_account_url" = dget t2 "x_account_url") :
    socialCount t1 = socialCount t2 := by
  unfold socialCount socials_to_check
  simp only [List.foldl]
  rw [socialFieldHit_congr "website_url" "http" h1,
      socialFieldHit_congr "telegram_url" "t.me" h2,
      socialFieldHit_congr "x_account_url" "x.com" h3]

/-- `socialAdj` only reads the three social fields. -/
theorem socialAdj_congr {t1 t2 : PyDict}
    (h1 : dget t1 "website_url" = dget t2 "website_url")
    (h2 : dget t1 "telegram_url" = dget t2 "telegram_url")
    (h3 : dget t1 "x_account_url" = dget t2 "x_account_url") :
    socialAdj t1 = socialAdj t2 := by
  unfold socialAdj
  rw [socialCount_congr h1 h2 h3]

/-- `walletAdj` only reads the two wallet fields. -/
theorem walletAdj_congr {t1 t2 : PyDict}
    (h1 : dget t1 "dev_wallet_address" = dget t2 "dev_wallet_address")
    (h2 : dget t1 "distribution_wallet_address" = dget t2 "distribution_wallet_address") :
    walletAdj t1 = walletAdj t2 := by
  unfold walletAdj
  rw [h1, h2]

/-- `websiteAdj` only reads the website field. -/
theorem websiteAdj_congr {t1 t2 : PyDict}
    (h : dget t1 "website_url" = dget t2 "website_url") :
    websiteAdj t1 = websiteAdj t2 := by
  unfold websiteAdj
  rw [h]

/-- `feeAdj` only reads the fee field. -/
theorem feeAdj_congr {t1 t2 : PyDict}
    (h : dget t1 "developer_fee_percentage" = dget t2 "developer_fee_percentage") :
    feeAdj t1 = feeAdj t2 := by
  unfold feeAdj dgetD
  rw [h]

/-- The score is a function of the six adjustments. -/
theorem calc_congr {t1 t2 : PyDict} {d : Option PyDict} {hp1 hp2 : PyVal → Bool}
    (hf : feeAdj t1 = feeAdj t2) (hs : socialAdj t1 = socialAdj t2)
    (hw : walletAdj t1 = walletAdj t2) (hweb : websiteAdj t1 = websiteAdj t2)
    (hh : honeypotAdj t1 hp1 = honeypotAdj t2 hp2) :
    calculate_safety_score t1 d hp1 = calculate_safety_score t2 d hp2 := by
  unfold calculate_safety_score
  rw [hf, hs, hw, hweb, hh]

/-- A list starting with one character is not a prefix of anything a
list starting with a different character is a prefix of. -/
theorem isPrefixOf_false_of_head {l : List Char} {a b : Char} {ta tb : List Char}
    (h : (a :: ta).isPrefixOf l = true) (hab : ¬(b = a)) :
    (b :: tb).isPrefixOf l = false := by
  cases l with
  | nil => simp [List.isPrefixOf] at h
  | cons c cs =>
    have hac : a = c := by
      simp only [List.isPrefixOf, Bool.and_eq_true, beq_iff_eq] at h
      exact h.1
    have hbc : (b == c) = false := by
      rw [← hac]
      exact beq_eq_false_iff_ne.mpr hab
    simp [List.isPrefixOf, hbc]

/-- A string starting with `https://` does not start with `t.me`. -/
theorem pyStartswith_https_not_tme (s : String)
    (h : pyStartswith s "https://" = true) : pyStartswith s "t.me" = false := by
  have h1 : ('h' :: "ttps://".toList).isPrefixOf s.toList = true := h
  have h2 : ('t' :: ".me".toList).isPrefixOf s.toList = false :=
    isPrefixOf_false_of_head h1 (by decide)
  exact h2

/-- A string starting with `https://` does not start with `x.com`. -/
theorem pyStartswith_https_not_xcom (s : String)
    (h : pyStartswith s "https://" = true) : pyStartswith s "x.com" = false := by
  have h1 : ('h' :: "ttps://".toList).isPrefixOf s.toList = true := h
  have h2 : ('x' :: ".com".toList).isPrefixOf s.toList = false :=
    isPrefixOf_false_of_head h1 (by decide)
  exact h2

/-- `honeypotAdj` only reads the mint-address field (for a fixed
service). -/
theorem honeypotAdj_congr_token {t1 t2 : PyDict} (hp : PyVal → Bool)
    (h : dget t1 "token_mint_address" = dget t2 "token_mint_address") :
    honeypotAdj t1 hp = honeypotAdj t2 hp := by
  unfold honeypotAdj
  rw [h]

/-! ### The claims -/

/-- C1: contrary to the specified website-quality rule, the `http://`
penalty can never fire: the source condition
`'http://' in website and not 'https://'` has a constant-false second
conjunct (`not` of a non-empty string literal), so a token with an
`http://` website scores the same 6 as the identical token with an
`https://` website, and the website adjustment of the `http://` token is
0, not -1. -/
theorem website_http_penalty_dead :
    calculate_safety_score tokHttp Option.none hpFalse = Except.ok 6 ∧
    calculate_safety_score tokHttps Option.none hpFalse = Except.ok 6 ∧
    websiteAdj tokHttp = Except.ok 0 := by decide

/-- C2 (counterexample): a token with no developer-fee field scores 5,
while the identical token with a fee of 15 (the `else 0` band) scores 4
— the missing fee does not contribute 0. -/
theorem missing_fee_not_else_band :
    calculate_safety_score tokNoFee Option.none hpFalse = Except.ok 5 ∧
    calculate_safety_score tokFee15 Option.none hpFalse = Except.ok 4 ∧
    calculate_safety_score tokNoFee Option.none hpFalse ≠
      calculate_safety_score tokFee15 Option.none hpFalse := by decide

/-- C2 (amended): a missing developer-fee field defaults to `0` through
`token.get("developer_fee_percentage", 0)` and therefore earns the +1
low-fee bonus: the token scores exactly as the identical token with an
explicit fee of 0, not as the 10-20% `else 0` band.  (A present but
non-numeric fee is what yields adjustment 0.) -/
theorem missing_fee_scores_as_fee_zero (token : PyDict) (d : Option PyDict)
    (hp : PyVal → Bool)
    (h : dget token "developer_fee_percentage" = Option.none) :
    calculate_safety_score token d hp =
      calculate_safety_score
        (("developer_fee_percentage", PyVal.num (DecNum.ofInt 0)) :: token) d hp ∧
    feeAdj token = 1 := by
  have hfee1 : feeAdj token = 1 := by
    unfold feeAdj dgetD
    rw [h]
    decide
  have hfee2 :
      feeAdj (("developer_fee_percentage", PyVal.num (DecNum.ofInt 0)) :: token) = 1 := by
    unfold feeAdj dgetD
    rw [dget_cons_self]
    decide
  refine ⟨?_, hfee1⟩
  apply calc_congr
  · exact hfee1.trans hfee2.symm
  · exact socialAdj_congr
      (dget_cons_ne token "developer_fee_percentage" "website_url" _ (by decide)).symm
      (dget_cons_ne token "developer_fee_percentage" "telegram_url" _ (by decide)).symm
      (dget_cons_ne token "developer_fee_percentage" "x_account_url" _ (by decide)).symm
  · exact walletAdj_congr
      (dget_cons_ne token "developer_fee_percentage" "dev_wallet_address" _ (by decide)).symm
      (dget_cons_ne token "developer_fee_percentage" "distribution_wallet_address" _ (by decide)).symm
  · exact websiteAdj_congr
      (dget_cons_ne token "developer_fee_percentage" "website_url" _ (by decide)).symm
  · exact honeypotAdj_congr_token hp
      (dget_cons_ne token "developer_fee_percentage" "token_mint_address" _ (by decide)).symm

/-- C2 (witness): the amended statement at the concrete fee-less token. -/
theorem missing_fee_scores_as_fee_zero_witness :
    calculate_safety_score tokNoFee Option.none hpFalse =
      calculate_safety_score
        (("developer_fee_percentage", PyVal.num (DecNum.ofInt 0)) :: tokNoFee)
        Option.none hpFalse ∧
    feeAdj tokNoFee = 1 :=
  missing_fee_scores_as_fee_zero tokNoFee Option.none hpFalse (by decide)

/-- C3 (counterexample): the formatter does raise on missing or
non-numeric input: `format_currency("abc")` raises `ValueError`, and
`send_token_info` on a token record that merely lacks `token_name`
raises `KeyError` instead of substituting `"N/A"`. -/
theorem formatter_raises_counterexample :
    format_currency (PyVal.str "abc") = Except.error PyErr.valueError ∧
    send_token_info tokNoName apiNone hpFalse
      = Except.error (PyErr.keyError "token_name") := by decide

/-- C3 (amended): `format_currency` substitutes `"N/A"` exactly for
falsy input (missing/`None`, zero, empty or `False`); a truthy value
that `float()` cannot convert raises `ValueError` instead (and
`send_token_info` likewise raises `KeyError` on absent token fields,
substituting `"N/A"` only for missing dex data). -/
theorem format_currency_na_exactly_for_falsy (v : PyVal) :
    (truthy v = false → format_currency v = Except.ok "N/A") ∧
    (truthy v = true → pyFloat v = Option.none →
      format_currency v = Except.error PyErr.valueError) := by
  constructor
  · intro h
    unfold format_currency
    simp [h]
  · intro ht hf
    unfold format_currency
    cases v with
    | str s => simp [ht, pyFloatE, hf]
    | num q => simp [pyFloat] at hf
    | bool b => cases b <;> simp_all [pyFloat, truthy]
    | none => simp [truthy] at ht

/-- C3 (witness): the amended statement evaluated at the non-numeric
string `"abc"` and at `None`. -/
theorem format_currency_na_exactly_for_falsy_witness :
    format_currency (PyVal.str "abc") = Except.error PyErr.valueError ∧
    format_currency PyVal.none = Except.ok "N/A" :=
  ⟨(format_currency_na_exactly_for_falsy (PyVal.str "abc")).2 (by decide) (by decide),
   (format_currency_na_exactly_for_falsy PyVal.none).1 (by decide)⟩

/-- C4 (counterexample): with two fresh tokens in one cycle, the
`KeyError` raised while notifying the first (it lacks `token_name`)
escapes the per-token loop, so the second token — which on its own would
be stored and notified — is never processed, and the error propagates
out of `monitor_new_tokens`. -/
theorem cycle_failure_aborts_siblings :
    processNewTokens [tokNoName, fullToken] [] apiNone hpFalse
      = Except.error (PyErr.keyError "token_name") ∧
    (processNewTokens [fullToken] [] apiNone hpFalse).toOption.map
      (fun r => r.2.length) = some 1 := by decide

/-- C4 (amended): the polling loop has no per-item exception isolation:
whenever `send_token_info` raises on a fresh token, that exception is
the result of the whole cycle — the remaining snapshot tokens are not
processed and the loop terminates.  (Only the transport failures of the
final Telegram post and of the two auxiliary lookups are caught inside
their own functions.) -/
theorem cycle_item_failure_propagates (t : PyDict) (rest : List PyDict)
    (seen : SeenSet) (A : PyVal → Option PyDict) (H : PyVal → Bool)
    (tid : PyVal) (e : PyErr)
    (h1 : dsub t "token_mint_address" = Except.ok tid)
    (h2 : hasKey seen tid = false)
    (h3 : send_token_info t A H = Except.error e) :
    processNewTokens (t :: rest) seen A H = Except.error e := by
  simp only [processNewTokens, h1]
  rw [if_neg (by simp [h2]), h3]

/-- C4 (witness): the amended statement at the two-token cycle. -/
theorem cycle_item_failure_propagates_witness :
    processNewTokens (tokNoName :: [fullToken]) [] apiNone hpFalse
      = Except.error (PyErr.keyError "token_name") :=
  cycle_item_failure_propagates tokNoName [fullToken] [] apiNone hpFalse
    (PyVal.str "M1") (PyErr.keyError "token_name") (by decide) (by decide) (by decide)

/-- C5 (counterexample): the scorer is not total: a token whose
`website_url` is the truthy non-string `1` makes
`token["website_url"].lower()` raise `AttributeError`. -/
theorem score_not_total_counterexample :
    calculate_safety_score tokBadWebsite Option.none hpFalse
      = Except.error PyErr.attributeError := by decide

/-- C5 (amended): for every token, dex and honeypot input whose
`website_url`, when present and truthy, is a string, the scorer returns
normally with an integer clamped into [1, 10]; a truthy non-string
`website_url` is the one input shape that raises. -/
theorem score_total_in_bounds (token : PyDict) (d : Option PyDict)
    (H : PyVal → Bool)
    (h : ∀ v, dget token "website_url" = some v → truthy v = true →
      ∃ s, v = PyVal.str s) :
    ∃ n, calculate_safety_score token d H = Except.ok n ∧ 1 ≤ n ∧ n ≤ 10 := by
  obtain ⟨w, hww⟩ : ∃ w, websiteAdj token = Except.ok w := by
    unfold websiteAdj
    cases hg : dget token "website_url" with
    | none => exact ⟨0, rfl⟩
    | some v =>
      dsimp only
      cases ht : truthy v with
      | false => exact ⟨0, rfl⟩
      | true =>
        obtain ⟨s, rfl⟩ := h v hg ht
        exact ⟨_, rfl⟩
  unfold calculate_safety_score
  rw [hww]
  refine ⟨_, rfl, le_max_left _ _, ?_⟩
  exact max_le (by norm_num) (min_le_left _ _)

/-- C5 (witness): the amended statement at a fully populated token. -/
theorem score_total_in_bounds_witness :
    ∃ n, calculate_safety_score fullToken Option.none hpFalse = Except.ok n ∧
      1 ≤ n ∧ n ≤ 10 :=
  score_total_in_bounds fullToken Option.none hpFalse (by
    intro v hv ht
    rw [show dget fullToken "website_url" = some (PyVal.str "https://site.com") from by decide] at hv
    cases hv
    exact ⟨"https://site.com", rfl⟩)

/-- C6 (counterexample): the scorer is not a function of
`(token, auxFacts)` alone: with the same token and the same (absent) dex
facts, two states of the live honeypot service give scores 5 and 2. -/
theorem score_depends_on_live_honeypot :
    calculate_safety_score tokNoFee Option.none hpFalse = Except.ok 5 ∧
    calculate_safety_score tokNoFee Option.none hpTrue = Except.ok 2 ∧
    calculate_safety_score tokNoFee Option.none hpFalse ≠
      calculate_safety_score tokNoFee Option.none hpTrue := by decide

/-- C6 (amended): the scorer performs a live `is_honeypot` lookup, so it
is deterministic only relative to the honeypot service's state: its
external dependence is exactly the verdict on the token's mint address,
and any two service states that agree there give the same score. -/
theorem score_det_given_honeypot (token : PyDict) (d : Option PyDict)
    (hp1 hp2 : PyVal → Bool)
    (h : ∀ v, dget token "token_mint_address" = some v → hp1 v = hp2 v) :
    calculate_safety_score token d hp1 = calculate_safety_score token d hp2 := by
  apply calc_congr rfl rfl rfl rfl
  unfold honeypotAdj
  cases e : dget token "token_mint_address" with
  | none => rfl
  | some v =>
    dsimp only
    rw [h v e]

/-- C6 (witness): two distinct service states that agree on `"M"`. -/
theorem score_det_given_honeypot_witness :
    calculate_safety_score tokNoFee Option.none hpFalse =
      calculate_safety_score tokNoFee Option.none hpOnlyX :=
  score_det_given_honeypot tokNoFee Option.none hpFalse hpOnlyX (by
    intro v hv
    rw [show dget tokNoFee "token_mint_address" = some (PyVal.str "M") from by decide] at hv
    cases hv
    decide)

/-- C7: the §8 scenario — fee 50%, no socials, unlocked/unburned $500
liquidity, identical developer and distribution wallets, no website, a
positive honeypot verdict — has unclamped adjustment sum
5 - 3 - 1 - 2 - 1 - 3 = -5, scores exactly 1 after the final clamp, and
that score is rendered as the "High Risk" tier. -/
theorem scenario_worst_case_scores_one :
    calculate_safety_score tok7 (some dex7) hpTrue = Except.ok 1 ∧
    (safetyTier 1).2 = "High Risk" ∧
    websiteAdj tok7 = Except.ok 0 ∧
    5 + feeAdj tok7 + socialAdj tok7 + liquidityAdj (some dex7)
      + walletAdj tok7 + 0 + honeypotAdj tok7 hpTrue = -5 := by decide

/-- C8: change detection is idempotent and suppresses the first cycle:
once the seen set has been seeded from a snapshot (or updated by a
successful cycle on it), running the cycle again on the identical
snapshot stores nothing and sends no notification, for every
snapshot. -/
theorem detect_idempotent_first_cycle_suppressed :
    (∀ (snap : List PyDict) (s0 s1 : SeenSet) (A : PyVal → Option PyDict)
        (H : PyVal → Bool),
        seedTokens snap s0 = Except.ok s1 →
        processNewTokens snap s1 A H = Except.ok (s1, [])) ∧
    (∀ (snap : List PyDict) (s0 : SeenSet) (A : PyVal → Option PyDict)
        (H : PyVal → Bool) (s1 : SeenSet) (ms : List MessagePayload),
        processNewTokens snap s0 A H = Except.ok (s1, ms) →
        processNewTokens snap s1 A H = Except.ok (s1, [])) := by
  constructor
  · intro snap s0 s1 A H h
    exact processNewTokens_noop snap s1 A H (seedTokens_covers snap s0 s1 h)
  · intro snap s0 A H s1 ms h
    exact processNewTokens_noop snap s1 A H (processNewTokens_spec snap s0 A H s1 ms h).2.2

/-- C8 (witness): seeding from a one-token snapshot and re-running the
cycle on the identical snapshot yields no new items. -/
theorem detect_idempotent_witness :
    seedTokens [fullToken] [] = Except.ok [(PyVal.str "M2", fullToken)] ∧
    processNewTokens [fullToken] [(PyVal.str "M2", fullToken)] apiNone hpFalse
      = Except.ok ([(PyVal.str "M2", fullToken)], []) :=
  ⟨by decide,
   detect_idempotent_first_cycle_suppressed.1 [fullToken] []
     [(PyVal.str "M2", fullToken)] apiNone hpFalse (by decide)⟩

/-- C9 (counterexample): the seen set keeps the first-seen record, not
the last-known one: after `tokA` (name "A", mint "m") has been stored, a
later cycle whose snapshot carries the updated record `tokB` (name "B",
same mint) leaves the mapping still pointing at `tokA`. -/
theorem seen_set_not_last_known :
    (processNewTokens [tokA] [] apiNone hpFalse).toOption.map Prod.fst
      = some [(PyVal.str "m", tokA)] ∧
    processNewTokens [tokB] [(PyVal.str "m", tokA)] apiNone hpFalse
      = Except.ok ([(PyVal.str "m", tokA)], []) ∧
    getKey [(PyVal.str "m", tokA)] (PyVal.str "m") = some tokA ∧
    tokA ≠ tokB := by decide

/-- C9 (amended): the seen set is a process-lifetime mapping from mint
address to the first-observed token record: every operation of the
monitor loop preserves existing keys (no eviction) and never overwrites
an existing binding, and seeding preserves existing keys as well. -/
theorem seen_set_monotone_first_record :
    (∀ (snap : List PyDict) (s0 : SeenSet) (A : PyVal → Option PyDict)
        (H : PyVal → Bool) (s1 : SeenSet) (ms : List MessagePayload),
        processNewTokens snap s0 A H = Except.ok (s1, ms) →
        (∀ k, hasKey s0 k = true → hasKey s1 k = true) ∧
        (∀ k v, getKey s0 k = some v → getKey s1 k = some v)) ∧
    (∀ (snap : List PyDict) (s0 s1 : SeenSet),
        seedTokens snap s0 = Except.ok s1 →
        ∀ k, hasKey s0 k = true → hasKey s1 k = true) := by
  constructor
  · intro snap s0 A H s1 ms h
    obtain ⟨m, p, _⟩ := processNewTokens_spec snap s0 A H s1 ms h
    exact ⟨m, p⟩
  · exact fun snap s0 s1 h => seedTokens_mono snap s0 s1 h

/-- C9 (witness): a pre-existing key survives a seeding pass that adds a
new token. -/
theorem seen_set_monotone_witness :
    hasKey [(PyVal.str "z", tokZ), (PyVal.str "m", tokA)] (PyVal.str "z") = true :=
  seen_set_monotone_first_record.2 [tokA] [(PyVal.str "z", tokZ)]
    [(PyVal.str "z", tokZ), (PyVal.str "m", tokA)] (by decide) (PyVal.str "z") (by decide)

/-- C10: the social check compares `str(value).startswith` against the
literal markers `t.me` / `x.com`, so a telegram or X link that begins
with a scheme such as `https://` contributes nothing to the social
count, well-formed as it may be. -/
theorem scheme_prefixed_socials_count_zero :
    (∀ (token : PyDict) (s : String),
        dget token "telegram_url" = some (PyVal.str s) →
        pyStartswith s "https://" = true →
        socialFieldHit token "telegram_url" "t.me" = false) ∧
    (∀ (token : PyDict) (s : String),
        dget token "x_account_url" = some (PyVal.str s) →
        pyStartswith s "https://" = true →
        socialFieldHit token "x_account_url" "x.com" = false) := by
  constructor
  · intro token s hget hsw
    unfold socialFieldHit
    rw [hget]
    simp [pyStr, pyStartswith_https_not_tme s hsw]
  · intro token s hget hsw
    unfold socialFieldHit
    rw [hget]
    simp [pyStr, pyStartswith_https_not_xcom s hsw]

/-- C10 (witness): `https://t.me/chan` and `https://x.com/chan` score no
social point. -/
theorem scheme_prefixed_socials_witness :
    socialFieldHit tgTok "telegram_url" "t.me" = false ∧
    socialFieldHit tgTok "x_account_url" "x.com" = false :=
  ⟨scheme_prefixed_socials_count_zero.1 tgTok "https://t.me/chan" (by decide) (by decide),
   scheme_prefixed_socials_count_zero.2 tgTok "https://x.com/chan" (by decide) (by decide)⟩
